import Mathlib

/-!
Shallow embedding of the fastapi-k8s demonstration HTTP service
(src/fastapi_k8s/main.py, plus the legacy top-level main.py variant).

The external store (Redis) is out of scope for the repository and is modelled
as an association-list keyed by strings, with the operations the code uses:
get / set / incr / delete (expire only sets a TTL and is not modelled, since no
claim observes expiration).  Store calls in the Python code can raise; this is
modelled by an optional injected exception parameter on each handler that
wraps its store calls in try/except.
-/

namespace FastapiK8s

/-- A JSON scalar appearing in a response body: the handlers only ever emit
strings and integers. -/
inductive JVal where
  | s (v : String)
  | n (v : Int)
deriving DecidableEq, Repr

/-- An HTTP response as produced by a handler: status code, JSON object body
(field/value pairs in emission order), an optional Set-Cookie (name, value)
and an optional cookie deletion. -/
structure HttpResponse where
  status : Nat
  body : List (String × JVal)
  setCookie : Option (String × String) := none
  delCookie : Option String := none
deriving DecidableEq, Repr

/-- The field names of a response body, in order. -/
def HttpResponse.fields (r : HttpResponse) : List String :=
  r.body.map (fun p => p.1)

/-- An exception raised by a call into the redis client.  In redis-py,
ConnectionError and TimeoutError both derive directly from RedisError:
TimeoutError is not a subclass of ConnectionError, so a Python
"except redis.ConnectionError" clause catches connError (and its
subclasses such as AuthenticationError) but neither timeoutError nor any
other exception. -/
inductive RedisExc where
  | connError (m : String)
  | timeoutError (m : String)
  | otherError (m : String)
deriving DecidableEq, Repr

/-- The str() message of the exception. -/
def RedisExc.msg : RedisExc → String
  | .connError m => m
  | .timeoutError m => m
  | .otherError m => m

/-- Whether "except redis.ConnectionError" catches this exception. -/
def RedisExc.isConnectionError : RedisExc → Bool
  | .connError _ => true
  | _ => false

/-- The outcome of one handler invocation: either a response was returned, or
an exception escaped the handler (the web framework then produces its own
generic 500, with no handler-chosen body). -/
inductive HandlerResult where
  | response (r : HttpResponse)
  | unhandled (e : RedisExc)
deriving DecidableEq, Repr

/-- A stored value.  Redis stores strings; INCR interprets the stored string
as a decimal integer and stores the incremented integer back.  `int n` stands
for the decimal string of `n` as written back by INCR; `asString` materialises
it when read back through a string GET. -/
inductive RVal where
  | str (v : String)
  | int (n : Int)
deriving DecidableEq, Repr

/-- The string a decode_responses=True GET returns for this value. -/
def RVal.asString : RVal → String
  | .str v => v
  | .int n => toString n

/-- The integer INCR reads out of this value, if it parses as one. -/
def RVal.toIntVal : RVal → Option Int
  | .str v => v.toInt?
  | .int n => some n

/-- The external store: an association list, most recent binding first. -/
abbrev Store := List (String × RVal)

/-- GET k. -/
def Store.get (st : Store) (k : String) : Option RVal :=
  (st.find? (fun p => p.1 == k)).map (fun p => p.2)

/-- SET k v (overwrite): the new binding shadows any older one. -/
def Store.set (st : Store) (k : String) (v : RVal) : Store :=
  (k, v) :: st

/-- DEL k. -/
def Store.delete (st : Store) (k : String) : Store :=
  st.filter (fun p => p.1 != k)

/-- INCR k: missing key counts as 0; a non-integer value is a redis error
(returned as none, which the handlers surface as an exception path). -/
def Store.incr (st : Store) (k : String) : Option (Int × Store) :=
  match Store.get st k with
  | none => some (1, Store.set st k (.int 1))
  | some v =>
    match v.toIntVal with
    | none => none
    | some n => some (n + 1, Store.set st k (.int (n + 1)))

/-! ### Configuration and users (src/fastapi_k8s/main.py lines 15-25) -/

/-- APP_VERSION = "1.0.0". -/
def APP_VERSION : String := "1.0.0"

/-- USERS = \x7b"admin": "admin", "user": "user"\x7d. -/
def USERS : List (String × String) := [("admin", "admin"), ("user", "user")]

/-- Dictionary lookup USERS.get(u): some password iff u in USERS. -/
def usersGet (u : String) : Option String :=
  (USERS.find? (fun p => p.1 == u)).map (fun p => p.2)

/-! ### Readiness flag (lines 98-130) -/

/-- The readiness flag starts true (line 99: _ready = True). -/
def readyInit : Bool := true

/-- The two endpoints that mutate the flag. -/
inductive ReadyOp where
  | enableOp
  | disableOp
deriving DecidableEq, Repr

/-- POST /ready/enable sets the flag true, POST /ready/disable sets it
false, regardless of the previous state. -/
def readyStep (_ : Bool) : ReadyOp → Bool
  | .enableOp => true
  | .disableOp => false

/-- The flag after a sequence of toggle requests starting at process start. -/
def runReadyOps (ops : List ReadyOp) : Bool :=
  ops.foldl readyStep readyInit

/-- GET /ready (lines 112-116). -/
def ready (r : Bool) : HttpResponse :=
  if r then { status := 200, body := [("status", .s "ready")] }
  else { status := 503, body := [("status", .s "not ready")] }

/-- POST /ready/enable response body (lines 119-123). -/
def ready_enable : HttpResponse := { status := 200, body := [("status", .s "ready")] }

/-- POST /ready/disable response body (lines 126-130). -/
def ready_disable : HttpResponse := { status := 200, body := [("status", .s "not ready")] }

/-! ### GET /stress (lines 139-148) -/

/-- GET /stress?seconds=N: the handler first clamps
seconds = min(seconds, MAX_STRESS_SECONDS), busy-loops, and reports the
clamped value.  The wall-clock loop itself is time-driven; its duration is
not part of this model, but see stressLoopEnters for its entry test. -/
def stress (maxStress seconds : Int) (server : String) : HttpResponse :=
  let s := min seconds maxStress
  { status := 200, body := [("stressed_seconds", .n s), ("server", .s server)] }

/-- The loop entry test: with t0 the clock when the loop is reached, the
code sets end = t0 + clamped seconds and runs the body while the clock is
below end, so the body runs at least once iff t0 < t0 + clamped. -/
def stressLoopEnters (t0 maxStress seconds : Int) : Bool :=
  let s := min seconds maxStress
  t0 < t0 + s

/-! ### GET /info (lines 167-179; identical in the legacy main.py) -/

/-- The process environment: os.getenv. -/
abbrev Env := String → Option String

/-- os.getenv(key, default). -/
def getenv (env : Env) (key default : String) : String :=
  (env key).getD default

/-- GET /info: pod metadata fields from Downward-API env vars.  pod_name
falls back to socket.gethostname(); the other seven fall back to literal
sentinels. -/
def info (env : Env) (hostname : String) : List (String × String) :=
  [("pod_name", getenv env "POD_NAME" hostname),
   ("pod_ip", getenv env "POD_IP" "unknown"),
   ("node_name", getenv env "NODE_NAME" "unknown"),
   ("namespace", getenv env "POD_NAMESPACE" "unknown"),
   ("cpu_request", getenv env "CPU_REQUEST" "not set"),
   ("cpu_limit", getenv env "CPU_LIMIT" "not set"),
   ("memory_request", getenv env "MEMORY_REQUEST" "not set"),
   ("memory_limit", getenv env "MEMORY_LIMIT" "not set")]

/-! ### Session helpers (lines 65-95) -/

/-- json.dumps(\x7b"username": username\x7d) as written by _create_session. -/
def sessionEncode (username : String) : String :=
  "\x7b\"username\": \"" ++ username ++ "\"\x7d"

/-- json.loads(data)["username"] for the canonical records written by
_create_session.  A stored value not of that shape yields none (in the real
code a malformed record would make json.loads raise; no reachable store
state contains one, since only _create_session writes session records). -/
def sessionDecode (s : String) : Option String :=
  let cs := s.data
  let pre := "\x7b\"username\": \"".data
  let suf := "\"\x7d".data
  if pre.isPrefixOf cs ∧ suf.isSuffixOf cs ∧ pre.length + suf.length ≤ cs.length
  then some ⟨(cs.drop pre.length).take (cs.length - pre.length - suf.length)⟩
  else none

/-- _create_session (lines 68-73): generate a token (here passed in as the
oracle sessionId, for secrets.token_hex(16)), store the session record under
"session:" ++ token, set its TTL (expiration is store-side wall-clock
behaviour and is not modelled), and return the token with the new store. -/
def create_session (st : Store) (sessionId username : String) : String × Store :=
  (sessionId, Store.set st ("session:" ++ sessionId) (.str (sessionEncode username)))

/-- _get_session (lines 76-81): read the session record and decode it. -/
def get_session (st : Store) (sessionId : String) : Option String :=
  match Store.get st ("session:" ++ sessionId) with
  | none => none
  | some v => sessionDecode v.asString

/-- _delete_session (lines 84-86). -/
def delete_session (st : Store) (sessionId : String) : Store :=
  Store.delete st ("session:" ++ sessionId)

/-- get_current_user (lines 89-95): 401 "not authenticated" without a cookie,
401 "session expired" when the session record is absent, else the username. -/
def get_current_user (st : Store) (sessionId : Option String) :
    Except (Nat × String) String :=
  match sessionId with
  | none => .error (401, "not authenticated")
  | some sid =>
    match get_session st sid with
    | none => .error (401, "session expired")
    | some username => .ok username

/-! ### Handlers over the store.  Each handler that wraps its store calls in
try/except takes a `fail : Option RedisExc` parameter: `some e` means the
store call raised `e`, `none` means it completed on the modelled store. -/

/-- The uniform error mapping of /visits, /kv GET and /kv POST
(except redis.ConnectionError → 503; except Exception → 500 with str(e)). -/
def storeExcResponse (e : RedisExc) : HttpResponse :=
  if e.isConnectionError
  then { status := 503, body := [("error", .s "redis unavailable")] }
  else { status := 500, body := [("error", .s e.msg)] }

/-- GET /visits (package app, lines 182-194): INCR "visits" and return
\x7bvisits, server, redis_host\x7d; ConnectionError → 503, other exception
(including redis raising on a non-integer stored value) → 500. -/
def visits (st : Store) (fail : Option RedisExc) (server redisHost : String) :
    HandlerResult × Store :=
  match fail with
  | some e => (.response (storeExcResponse e), st)
  | none =>
    match Store.incr st "visits" with
    | none =>
      (.response
        { status := 500,
          body := [("error", .s "value is not an integer or out of range")] }, st)
    | some (n, st') =>
      (.response
        { status := 200,
          body := [("visits", .n n), ("server", .s server),
                   ("redis_host", .s redisHost)] }, st')

/-- GET /visits in the legacy top-level main.py (lines 139-151): identical
except the body is \x7bvisits, server\x7d with no redis_host field. -/
def visitsLegacy (st : Store) (fail : Option RedisExc) (server : String) :
    HandlerResult × Store :=
  match fail with
  | some e => (.response (storeExcResponse e), st)
  | none =>
    match Store.incr st "visits" with
    | none =>
      (.response
        { status := 500,
          body := [("error", .s "value is not an integer or out of range")] }, st)
    | some (n, st') =>
      (.response
        { status := 200,
          body := [("visits", .n n), ("server", .s server)] }, st')

/-- GET /kv/\x7bkey\x7d (lines 197-211): GET "kv:" ++ key; absent → 404,
present → 200 \x7bkey, value\x7d, with the uniform error mapping. -/
def kv_get (st : Store) (key : String) (fail : Option RedisExc) : HandlerResult :=
  match fail with
  | some e => .response (storeExcResponse e)
  | none =>
    match Store.get st ("kv:" ++ key) with
    | none => .response { status := 404, body := [("error", .s "key not found")] }
    | some v =>
      .response { status := 200, body := [("key", .s key), ("value", .s v.asString)] }

/-- POST /kv/\x7bkey\x7d (lines 214-226): SET "kv:" ++ key to the body value,
return 200 \x7bkey, value\x7d, with the uniform error mapping. -/
def kv_set (st : Store) (key value : String) (fail : Option RedisExc) :
    HandlerResult × Store :=
  match fail with
  | some e => (.response (storeExcResponse e), st)
  | none =>
    (.response { status := 200, body := [("key", .s key), ("value", .s value)] },
     Store.set st ("kv:" ++ key) (.str value))

/-! ### Auth endpoints (lines 229-260) -/

/-- Request body of POST /login. -/
structure LoginInput where
  username : String
  password : String
deriving DecidableEq, Repr

/-- POST /login (lines 232-243): reject unless USERS contains the username
with exactly the given password (HTTPException 401, before any store call);
then _create_session inside try/except redis.ConnectionError → 503 — there is
no generic except clause here, so any other exception escapes the handler.
On success: 200 \x7bmessage, username\x7d and an http-only session_id cookie. -/
def login (st : Store) (sessionId : String) (body : LoginInput)
    (fail : Option RedisExc) : HandlerResult × Store :=
  match usersGet body.username with
  | none =>
    (.response { status := 401, body := [("detail", .s "invalid credentials")] }, st)
  | some pw =>
    if pw ≠ body.password then
      (.response { status := 401, body := [("detail", .s "invalid credentials")] }, st)
    else
      match fail with
      | some e =>
        if e.isConnectionError then
          (.response { status := 503, body := [("error", .s "redis unavailable")] }, st)
        else (.unhandled e, st)
      | none =>
        let (sid, st') := create_session st sessionId body.username
        (.response
          { status := 200,
            body := [("message", .s "logged in"), ("username", .s body.username)],
            setCookie := some ("session_id", sid) }, st')

/-- POST /logout (lines 246-255): when a cookie is present, _delete_session
inside try/except redis.ConnectionError → pass; any other exception escapes.
Always (when no exception escapes) 200 \x7bmessage: logged out\x7d and
delete_cookie("session_id"). -/
def logout (st : Store) (sessionId : Option String) (fail : Option RedisExc) :
    HandlerResult × Store :=
  let resp : HttpResponse :=
    { status := 200, body := [("message", .s "logged out")],
      delCookie := some "session_id" }
  match sessionId with
  | none => (.response resp, st)
  | some sid =>
    match fail with
    | some e =>
      if e.isConnectionError then (.response resp, st) else (.unhandled e, st)
    | none => (.response resp, delete_session st sid)

/-- GET /me (lines 258-260): resolve the session cookie through
get_current_user (its 401s short-circuit the handler), then return
\x7busername, server\x7d. -/
def me (st : Store) (sessionId : Option String) (server : String) : HttpResponse :=
  match get_current_user st sessionId with
  | .error (code, detail) => { status := code, body := [("detail", .s detail)] }
  | .ok username =>
    { status := 200, body := [("username", .s username), ("server", .s server)] }

/-! ### Derived runs used by the claims -/

/-- The body field names of a handler outcome, when a response was produced. -/
def HandlerResult.fields : HandlerResult → Option (List String)
  | .response r => some r.fields
  | .unhandled _ => none

/-- The responses of n sequential GET /visits calls on the package app,
threading the store from call to call. -/
def visitsRun (st : Store) (server host : String) : Nat → List HandlerResult
  | 0 => []
  | n + 1 =>
    (visits st none server host).1 ::
      visitsRun (visits st none server host).2 server host n

/-- A sequence of later POST /kv writes, applied in order. -/
def applyKvWrites (ws : List (String × String)) (st : Store) : Store :=
  ws.foldl (fun s p => (kv_set s p.1 p.2 none).2) st

/-- The successful GET /visits response of the package app reporting count j. -/
def visitOk (server host : String) (j : Int) : HandlerResult :=
  .response { status := 200,
              body := [("visits", .n j), ("server", .s server),
                       ("redis_host", .s host)] }

/-- The visit-counter key holds m: either a previous INCR stored the integer
m, or the key is absent and m = 0 (a fresh counter). -/
def counterIs (st : Store) (m : Int) : Prop :=
  Store.get st "visits" = some (.int m) ∨ (m = 0 ∧ Store.get st "visits" = none)

/-! ## Helper lemmas -/

theorem Store.get_set_self (st : Store) (k : String) (v : RVal) :
    Store.get (Store.set st k v) k = some v := by
  simp [Store.get, Store.set, List.find?]

theorem Store.get_set_ne (st : Store) (k k' : String) (v : RVal) (h : k' ≠ k) :
    Store.get (Store.set st k' v) k = Store.get st k := by
  have hb : (k' == k) = false := by simp [h]
  simp [Store.get, Store.set, List.find?, hb]

theorem usersGet_eq (u : String) :
    usersGet u =
      if u = "admin" then some "admin"
      else if u = "user" then some "user" else none := by
  by_cases h1 : u = "admin"
  · subst h1; rfl
  · by_cases h2 : u = "user"
    · subst h2; rfl
    · have b1 : ("admin" == u) = false := by simp [Ne.symm h1]
      have b2 : ("user" == u) = false := by simp [Ne.symm h2]
      simp [usersGet, USERS, List.find?, b1, b2, h1, h2]

theorem usersGet_cases {u p : String} (h : usersGet u = some p) :
    (u = "admin" ∧ p = "admin") ∨ (u = "user" ∧ p = "user") := by
  rw [usersGet_eq] at h
  by_cases h1 : u = "admin"
  · rw [if_pos h1] at h
    exact Or.inl ⟨h1, (Option.some.inj h).symm⟩
  · rw [if_neg h1] at h
    by_cases h2 : u = "user"
    · rw [if_pos h2] at h
      exact Or.inr ⟨h2, (Option.some.inj h).symm⟩
    · rw [if_neg h2] at h
      exact absurd h (by simp)

theorem string_append_left_cancel {a b c : String} (h : a ++ b = a ++ c) :
    b = c := by
  have hd : a.data ++ b.data = a.data ++ c.data := by
    have h2 := congrArg String.data h
    simpa using h2
  cases b
  cases c
  exact congrArg String.mk (List.append_cancel_left hd)

theorem get_applyKvWrites (ws : List (String × String)) (st : Store) (k : String)
    (hws : ∀ p ∈ ws, p.1 ≠ k) :
    Store.get (applyKvWrites ws st) ("kv:" ++ k) = Store.get st ("kv:" ++ k) := by
  induction ws generalizing st with
  | nil => rfl
  | cons p ws ih =>
    have hstep : applyKvWrites (p :: ws) st =
        applyKvWrites ws (Store.set st ("kv:" ++ p.1) (.str p.2)) := rfl
    rw [hstep, ih _ (fun q hq => hws q (List.mem_cons_of_mem p hq))]
    apply Store.get_set_ne
    intro hcontra
    exact hws p (List.mem_cons_self p ws) (string_append_left_cancel hcontra)

theorem visitsRun_counter (server host : String) :
    ∀ (n : Nat) (st : Store) (m : Int), counterIs st m →
      visitsRun st server host n =
        (List.range n).map (fun i : Nat => visitOk server host (m + 1 + (i : Int))) := by
  intro n
  induction n with
  | zero => intro st m _; rfl
  | succ n ih =>
    intro st m hm
    have hincr : Store.incr st "visits" =
        some (m + 1, Store.set st "visits" (.int (m + 1))) := by
      rcases hm with h | ⟨hm0, h⟩
      · simp [Store.incr, h, RVal.toIntVal]
      · subst hm0; simp [Store.incr, h]
    have hnext : counterIs (Store.set st "visits" (.int (m + 1))) (m + 1) :=
      Or.inl (Store.get_set_self st _ _)
    have hv : visits st none server host =
        (visitOk server host (m + 1), Store.set st "visits" (.int (m + 1))) := by
      simp [visits, hincr, visitOk]
    have hrun : visitsRun st server host (n + 1) =
        (visits st none server host).1 ::
          visitsRun (visits st none server host).2 server host n := rfl
    rw [hrun, hv]
    simp only []
    rw [ih _ _ hnext, List.range_succ_eq_map, List.map_cons, List.map_map]
    refine congrArg₂ _ (by norm_num) ?_
    refine List.map_congr_left (fun i _ => ?_)
    simp only [Function.comp]
    refine congrArg (visitOk server host) ?_
    push_cast
    ring

/-! ## Claim theorems -/

/-- Claim C9: the readiness flag starts true and is mutated only by the
enable endpoint (to true) and the disable endpoint (to false), modelled by
runReadyOps over arbitrary request sequences; in every reachable state
GET /ready returns 200 status ready exactly when the flag is true and
503 status not ready exactly when it is false, so disable followed by
enable restores the 200 response. -/
theorem readiness_contract (ops : List ReadyOp) :
    readyInit = true ∧
    (∀ r : Bool, readyStep r .enableOp = true ∧ readyStep r .disableOp = false) ∧
    (ready (runReadyOps ops) =
      if runReadyOps ops then { status := 200, body := [("status", .s "ready")] }
      else { status := 503, body := [("status", .s "not ready")] }) ∧
    runReadyOps (ops ++ [.disableOp, .enableOp]) = true ∧
    ready (runReadyOps (ops ++ [.disableOp, .enableOp])) =
      { status := 200, body := [("status", .s "ready")] } := by
  refine ⟨rfl, fun r => ⟨rfl, rfl⟩, ?_, ?_, ?_⟩
  · cases h : runReadyOps ops <;> simp [ready, h]
  · simp [runReadyOps, List.foldl_append, readyStep]
  · simp [runReadyOps, List.foldl_append, readyStep, ready]

/-- Claim C6: GET /stress reports stressed_seconds equal to the clamped
value min(N, MAX_STRESS_SECONDS); in particular for N greater than the
configured maximum the reported value is the maximum, not N. -/
theorem stress_clamped (maxStress n : Int) (server : String) :
    stress maxStress n server =
      { status := 200,
        body := [("stressed_seconds", .n (min n maxStress)), ("server", .s server)] } ∧
    (maxStress < n →
      stress maxStress n server =
        { status := 200,
          body := [("stressed_seconds", .n maxStress), ("server", .s server)] }) := by
  refine ⟨rfl, fun h => ?_⟩
  simp [stress, min_eq_right h.le]

theorem stress_clamped_witness :
    stress 30 45 "srv" =
      { status := 200,
        body := [("stressed_seconds", .n 30), ("server", .s "srv")] } :=
  (stress_clamped 30 45 "srv").2 (by decide)

/-- Claim C10: for seconds ≤ 0 (under a nonnegative configured maximum, the
default being 30), the busy loop entry test fails at once so the loop body
never runs, and the reported stressed_seconds is the given value itself,
possibly negative: the clamp only lowers, never raises to 0. -/
theorem stress_nonpositive (maxStress n t0 : Int) (server : String)
    (hn : n ≤ 0) (hmax : 0 ≤ maxStress) :
    stressLoopEnters t0 maxStress n = false ∧
    stress maxStress n server =
      { status := 200,
        body := [("stressed_seconds", .n n), ("server", .s server)] } := by
  have hmin : min n maxStress = n := min_eq_left (hn.trans hmax)
  constructor
  · simp only [stressLoopEnters, hmin, decide_eq_false_iff_not, not_lt]
    omega
  · simp [stress, hmin]

theorem stress_nonpositive_witness :
    stressLoopEnters 100 30 (-3) = false ∧
    stress 30 (-3) "srv" =
      { status := 200,
        body := [("stressed_seconds", .n (-3)), ("server", .s "srv")] } :=
  stress_nonpositive 30 (-3) 100 "srv" (by decide) (by decide)

/-- Claim C2 as stated is false: with every pod-metadata variable absent,
the pod_name field of GET /info is the server hostname (here "myhost"),
which is neither sentinel string. -/
theorem info_pod_name_counterexample :
    (info (fun _ => none) "myhost").find? (fun p => p.1 == "pod_name") =
      some ("pod_name", "myhost") ∧
    "myhost" ≠ "unknown" ∧ "myhost" ≠ "not set" :=
  ⟨rfl, by decide, by decide⟩

/-- Claim C2 amended: when the pod-metadata variables are absent, GET /info
returns the sentinel "unknown" for pod_ip, node_name and namespace and
"not set" for the four cpu/memory request/limit fields, while pod_name
defaults to the server hostname rather than a sentinel. -/
theorem info_defaults (env : Env) (hostname : String)
    (h1 : env "POD_NAME" = none) (h2 : env "POD_IP" = none)
    (h3 : env "NODE_NAME" = none) (h4 : env "POD_NAMESPACE" = none)
    (h5 : env "CPU_REQUEST" = none) (h6 : env "CPU_LIMIT" = none)
    (h7 : env "MEMORY_REQUEST" = none) (h8 : env "MEMORY_LIMIT" = none) :
    info env hostname =
      [("pod_name", hostname), ("pod_ip", "unknown"), ("node_name", "unknown"),
       ("namespace", "unknown"), ("cpu_request", "not set"),
       ("cpu_limit", "not set"), ("memory_request", "not set"),
       ("memory_limit", "not set")] := by
  simp [info, getenv, h1, h2, h3, h4, h5, h6, h7, h8]

theorem info_defaults_witness :
    info (fun _ => none) "myhost" =
      [("pod_name", "myhost"), ("pod_ip", "unknown"), ("node_name", "unknown"),
       ("namespace", "unknown"), ("cpu_request", "not set"),
       ("cpu_limit", "not set"), ("memory_request", "not set"),
       ("memory_limit", "not set")] :=
  info_defaults (fun _ => none) "myhost" rfl rfl rfl rfl rfl rfl rfl rfl

/-- Claim C5 as stated is false for the package app: a successful GET /visits
response there carries the three fields visits, server and redis_host, not
exactly the two fields visits and server. -/
theorem visits_fields_counterexample :
    (visits [] none "srv" "redis-host").1.fields =
      some ["visits", "server", "redis_host"] ∧
    some ["visits", "server", "redis_host"] ≠ some ["visits", "server"] :=
  ⟨rfl, by decide⟩

/-- Claim C5 amended: a successful GET /visits returns 200 whose body has
exactly the fields visits, server and redis_host in the package app
(src/fastapi_k8s/main.py), and exactly visits and server in the legacy
top-level main.py variant. -/
theorem visits_success_fields (st : Store) (n : Int) (st' : Store)
    (server host : String) (h : Store.incr st "visits" = some (n, st')) :
    (visits st none server host).1 =
      .response { status := 200,
                  body := [("visits", .n n), ("server", .s server),
                           ("redis_host", .s host)] } ∧
    (visitsLegacy st none server).1 =
      .response { status := 200,
                  body := [("visits", .n n), ("server", .s server)] } := by
  constructor <;> simp [visits, visitsLegacy, h]

theorem visits_success_fields_witness :
    (visits [] none "srv" "redis-host").1 =
      .response { status := 200,
                  body := [("visits", .n 1), ("server", .s "srv"),
                           ("redis_host", .s "redis-host")] } ∧
    (visitsLegacy [] none "srv").1 =
      .response { status := 200,
                  body := [("visits", .n 1), ("server", .s "srv")] } :=
  visits_success_fields [] 1 [("visits", .int 1)] "srv" "redis-host" (by decide)

/-- Claim C3 as stated is false: a store failure during session deletion
that is not a connection error is not swallowed — with a cookie present and
the delete raising a generic store error, logout does not produce the 200
logged-out response; the exception escapes the handler. -/
theorem logout_counterexample :
    (logout [] (some "sid1") (some (.otherError "boom"))).1 =
      .unhandled (.otherError "boom") ∧
    (logout [] (some "sid1") (some (.otherError "boom"))).1 ≠
      .response { status := 200, body := [("message", .s "logged out")],
                  delCookie := some "session_id" } :=
  ⟨rfl, by decide⟩

/-- Claim C3 amended: POST /logout returns 200 with message logged out and
clears the session cookie when no cookie is present, when the deletion
succeeds (deleting an absent key included), and when the deletion raises a
store connection error, which is swallowed; a non-connection store exception
during deletion instead escapes the handler. -/
theorem logout_contract (st : Store) (sid : String) (fail : Option RedisExc) :
    (logout st none fail).1 =
      .response { status := 200, body := [("message", .s "logged out")],
                  delCookie := some "session_id" } ∧
    (logout st (some sid) fail).1 =
      (match fail with
       | none =>
         .response { status := 200, body := [("message", .s "logged out")],
                     delCookie := some "session_id" }
       | some e =>
         if e.isConnectionError then
           .response { status := 200, body := [("message", .s "logged out")],
                       delCookie := some "session_id" }
         else .unhandled e) := by
  constructor
  · cases fail <;> rfl
  · cases fail with
    | none => rfl
    | some e => cases e <;> rfl

/-- Claim C4 as stated is false: for POST /login with valid credentials, a
store exception other than a connection error does not yield a 500 response
carrying the raw error message — the login handler has no generic except
clause, so the exception escapes the handler. -/
theorem login_error_counterexample :
    (login [] "tok1" ⟨"admin", "admin"⟩ (some (.otherError "boom"))).1 =
      .unhandled (.otherError "boom") ∧
    (login [] "tok1" ⟨"admin", "admin"⟩ (some (.otherError "boom"))).1 ≠
      .response { status := 500, body := [("error", .s "boom")] } :=
  ⟨rfl, by decide⟩

/-- Claim C4 amended: for GET /visits, GET /kv and POST /kv, a store
exception that is a connection error yields 503 with error redis unavailable
and any other store exception yields 500 with the raw error message (redis
timeouts are raised as redis.TimeoutError, which is not a subclass of
redis.ConnectionError, so they take the 500 path); for POST /login with
valid credentials a connection error yields the same 503, while any other
store exception escapes the handler unhandled. -/
theorem store_error_mapping (st : Store) (e : RedisExc)
    (key value server host tok : String) (body : LoginInput)
    (hvalid : usersGet body.username = some body.password) :
    (visits st (some e) server host).1 =
      (if e.isConnectionError then
        .response { status := 503, body := [("error", .s "redis unavailable")] }
      else .response { status := 500, body := [("error", .s e.msg)] }) ∧
    kv_get st key (some e) =
      (if e.isConnectionError then
        .response { status := 503, body := [("error", .s "redis unavailable")] }
      else .response { status := 500, body := [("error", .s e.msg)] }) ∧
    (kv_set st key value (some e)).1 =
      (if e.isConnectionError then
        .response { status := 503, body := [("error", .s "redis unavailable")] }
      else .response { status := 500, body := [("error", .s e.msg)] }) ∧
    (login st tok body (some e)).1 =
      (if e.isConnectionError then
        .response { status := 503, body := [("error", .s "redis unavailable")] }
      else .unhandled e) := by
  have hpw : ¬(body.password ≠ body.password) := fun hne => hne rfl
  refine ⟨?_, ?_, ?_, ?_⟩ <;>
    cases e <;>
      simp [visits, kv_get, kv_set, login, storeExcResponse, RedisExc.isConnectionError,
            RedisExc.msg, hvalid, hpw]

theorem store_error_mapping_witness :
    ((visits [] (some (.timeoutError "Timeout reading from socket")) "srv" "h1").1 =
      .response { status := 500,
                  body := [("error", .s "Timeout reading from socket")] }) ∧
    (kv_get [] "k" (some (.timeoutError "Timeout reading from socket")) =
      .response { status := 500,
                  body := [("error", .s "Timeout reading from socket")] }) ∧
    ((kv_set [] "k" "v" (some (.timeoutError "Timeout reading from socket"))).1 =
      .response { status := 500,
                  body := [("error", .s "Timeout reading from socket")] }) ∧
    ((login [] "tok1" ⟨"admin", "admin"⟩
        (some (.timeoutError "Timeout reading from socket"))).1 =
      .unhandled (.timeoutError "Timeout reading from socket")) :=
  store_error_mapping [] (.timeoutError "Timeout reading from socket")
    "k" "v" "srv" "h1" "tok1" ⟨"admin", "admin"⟩ (by decide)

/-- Claim C7: POST /kv/k with value v followed (after any later writes to
other keys) by GET /kv/k returns 200 with that key and value — so the most
recent write to k wins, whatever the earlier store contents; and GET /kv/k
on a store whose key kv:k was never written returns 404 key not found. -/
theorem kv_last_write_wins (st st0 : Store) (k v : String)
    (ws : List (String × String)) (hws : ∀ p ∈ ws, p.1 ≠ k)
    (h0 : Store.get st0 ("kv:" ++ k) = none) :
    kv_get (applyKvWrites ws (kv_set st k v none).2) k none =
      .response { status := 200, body := [("key", .s k), ("value", .s v)] } ∧
    kv_get st0 k none =
      .response { status := 404, body := [("error", .s "key not found")] } := by
  constructor
  · have h1 : Store.get (applyKvWrites ws (kv_set st k v none).2) ("kv:" ++ k) =
        some (.str v) := by
      rw [get_applyKvWrites ws _ k hws]
      exact Store.get_set_self st _ _
    simp [kv_get, h1, RVal.asString]
  · simp [kv_get, h0]

theorem kv_last_write_wins_witness :
    kv_get (applyKvWrites [("b", "x")]
        (kv_set [("kv:a", .str "v1")] "a" "v2" none).2) "a" none =
      .response { status := 200, body := [("key", .s "a"), ("value", .s "v2")] } ∧
    kv_get [] "a" none =
      .response { status := 404, body := [("error", .s "key not found")] } :=
  kv_last_write_wins [("kv:a", .str "v1")] [] "a" "v2" [("b", "x")]
    (by decide) rfl

/-- Claim C8: starting from a fresh counter, the i-th of N sequential
successful GET /visits calls returns visits = i: the responses are exactly
the 200 responses reporting 1, 2, ..., N in order (each call performing the
single INCR of the counter key). -/
theorem visits_sequence (server host : String) (N : Nat) (st : Store)
    (h : Store.get st "visits" = none) :
    visitsRun st server host N =
      (List.range N).map (fun i : Nat => visitOk server host ((i : Int) + 1)) := by
  rw [visitsRun_counter server host N st 0 (Or.inr ⟨rfl, h⟩)]
  refine List.map_congr_left (fun i _ => ?_)
  exact congrArg (visitOk server host) (by omega)

theorem visits_sequence_witness :
    visitsRun [] "srv" "h1" 3 =
      [visitOk "srv" "h1" 1, visitOk "srv" "h1" 2, visitOk "srv" "h1" 3] :=
  visits_sequence "srv" "h1" 3 [] rfl

/-- Claim C1: for every credential pair in the fixed two-entry table
(admin/admin and user/user, per usersGet), POST /login returns 200 with the
logged-in body and sets the session_id cookie to the fresh token, and a
subsequent GET /me presenting that cookie against the resulting store
returns 200 with the same username; for every other pair, login returns
401 invalid credentials with no cookie set and an unchanged store. -/
theorem login_me_contract (st : Store) (tok server : String) (body : LoginInput) :
    if usersGet body.username = some body.password then
      (login st tok body none).1 =
        .response { status := 200,
                    body := [("message", .s "logged in"),
                             ("username", .s body.username)],
                    setCookie := some ("session_id", tok) } ∧
      me (login st tok body none).2 (some tok) server =
        { status := 200,
          body := [("username", .s body.username), ("server", .s server)] }
    else
      login st tok body none =
        (.response { status := 401,
                     body := [("detail", .s "invalid credentials")] }, st) := by
  rcases body with ⟨u, p⟩
  split
  · rename_i h
    rcases usersGet_cases h with ⟨hu, hp⟩ | ⟨hu, hp⟩ <;> subst hu <;> subst hp
    · refine ⟨rfl, ?_⟩
      have hget : Store.get (Store.set st ("session:" ++ tok)
            (.str (sessionEncode "admin"))) ("session:" ++ tok) =
          some (.str (sessionEncode "admin")) := Store.get_set_self st _ _
      have hdec : sessionDecode (sessionEncode "admin") = some "admin" := by decide
      have hu2 : usersGet "admin" = some "admin" := rfl
      simp [me, get_current_user, login, create_session, get_session, hu2, hget,
            RVal.asString, hdec]
    · refine ⟨rfl, ?_⟩
      have hget : Store.get (Store.set st ("session:" ++ tok)
            (.str (sessionEncode "user"))) ("session:" ++ tok) =
          some (.str (sessionEncode "user")) := Store.get_set_self st _ _
      have hdec : sessionDecode (sessionEncode "user") = some "user" := by decide
      have hu2 : usersGet "user" = some "user" := rfl
      simp [me, get_current_user, login, create_session, get_session, hu2, hget,
            RVal.asString, hdec]
  · rename_i h
    cases husers : usersGet u with
    | none => simp [login, husers]
    | some pw =>
      have hne : pw ≠ p := fun hpe => h (by rw [husers, hpe])
      simp [login, husers, hne]

theorem login_me_contract_witness :
    ((login [] "tok1" ⟨"admin", "admin"⟩ none).1 =
      .response { status := 200,
                  body := [("message", .s "logged in"), ("username", .s "admin")],
                  setCookie := some ("session_id", "tok1") } ∧
     me (login [] "tok1" ⟨"admin", "admin"⟩ none).2 (some "tok1") "srv" =
      { status := 200,
        body := [("username", .s "admin"), ("server", .s "srv")] }) ∧
    login [] "tok1" ⟨"admin", "wrong"⟩ none =
      (.response { status := 401,
                   body := [("detail", .s "invalid credentials")] }, []) := by
  constructor
  · have h := login_me_contract [] "tok1" "srv" (⟨"admin", "admin"⟩ : LoginInput)
    rwa [if_pos (show usersGet (LoginInput.mk "admin" "admin").username =
      some (LoginInput.mk "admin" "admin").password from rfl)] at h
  · have h := login_me_contract [] "tok1" "srv" (⟨"admin", "wrong"⟩ : LoginInput)
    rwa [if_neg (show ¬(usersGet (LoginInput.mk "admin" "wrong").username =
      some (LoginInput.mk "admin" "wrong").password) by decide)] at h

end FastapiK8s
